import Mathlib

/-!
Verification of the reading-analytics core of the better-pdf-reader repository.

The development shallowly embeds the session recorder, flush path and
aggregation engine of `src/hooks/use-reading-stats.ts` together with the data
model and error type of `src/lib/analytics-storage.ts`.  Timestamps and
durations are modelled as `Int` (JavaScript millisecond arithmetic on
`Date.now()` values), averages as `ℚ` (exact JavaScript division on the small
integer inputs that occur here), and the four IndexedDB object stores as lists
keyed the way the stores are keyed (`put` is an upsert on the key path).
-/

-- ===========================================================================
-- Date helpers (Date.toISOString().split("T")[0] and friends)
-- ===========================================================================

/-- Civil date (year, month, day) from a count of days since 1970-01-01,
for non-negative day counts (all modelled instants are after the epoch). -/
def civilFromDays (z0 : Nat) : Nat × Nat × Nat :=
  let z := z0 + 719468
  let era := z / 146097
  let doe := z % 146097
  let yoe := (doe - doe / 1460 + doe / 36524 - doe / 146096) / 365
  let y := yoe + era * 400
  let doy := doe - (365 * yoe + yoe / 4 - yoe / 100)
  let mp := (5 * doy + 2) / 153
  let d := doy - (153 * mp + 2) / 5 + 1
  let m := if mp < 10 then mp + 3 else mp - 9
  (if m ≤ 2 then y + 1 else y, m, d)

/-- Zero-padded two-digit decimal rendering of a month or day number. -/
def pad2 (n : Nat) : String :=
  if n < 10 then "0" ++ toString n else toString n

/-- Render a day count since the epoch as a "YYYY-MM-DD" string. -/
def dateString (days : Nat) : String :=
  let c := civilFromDays days
  toString c.1 ++ "-" ++ pad2 c.2.1 ++ "-" ++ pad2 c.2.2

/-- Days since the epoch of a millisecond timestamp (non-negative instants). -/
def epochDay (ms : Int) : Nat :=
  ms.toNat / 86400000

/-- Embeds `getTodayString` of the source: `new Date(now).toISOString()`
prints the UTC calendar date, so the date is taken from the raw epoch
milliseconds with no timezone adjustment. -/
def getTodayString (now : Int) : String :=
  dateString (epochDay now)

/-- The spec's words, for comparison with `getTodayString`: the local calendar
date of an instant in a timezone that is `tz` milliseconds ahead of UTC. -/
def specLocalDateString (tz : Int) (now : Int) : String :=
  dateString (epochDay (now + tz))

/-- Embeds `new Date().getDay()`: JavaScript day-of-week (0 = Sunday) of the
local calendar date, for a fixed-offset timezone `tz` ms ahead of UTC. -/
def jsGetDay (tz : Int) (now : Int) : Nat :=
  (epochDay (now + tz) + 4) % 7

/-- Embeds the Monday-indexed weekday conversion of the source:
`dayOfWeek === 0 ? 6 : dayOfWeek - 1`. -/
def jsAdjustedDay (tz : Int) (now : Int) : Nat :=
  let d := jsGetDay tz now
  if d = 0 then 6 else d - 1

/-- Embeds `Math.round(d / 60000)` for a non-negative millisecond count. -/
def jsRoundDiv60000 (d : Int) : Int :=
  (2 * d + 60000) / 120000

-- ===========================================================================
-- Generic first-occurrence deduplication (JavaScript Set insertion order)
-- ===========================================================================

/-- Deduplicate a list keeping the first occurrence of each element, the
iteration order of a JavaScript `Set` built from the list. -/
def dedupFirst {α : Type} [DecidableEq α] : List α → List α
  | [] => []
  | x :: xs => x :: dedupFirst (xs.filter (fun y => y ≠ x))
termination_by l => l.length
decreasing_by
  simpa using Nat.lt_succ_of_le (List.length_filter_le _ xs)

-- ===========================================================================
-- Data model (analytics-storage.ts)
-- ===========================================================================

/-- `PageReadingTime`: time spent on a specific page during a session. -/
structure PageReadingTime where
  page : Nat
  durationMs : Int
  visitCount : Int
deriving DecidableEq, Repr

/-- `ReadingSessionRecord`: one persisted reading session. -/
structure ReadingSessionRecord where
  id : String
  documentId : String
  startedAt : Int
  endedAt : Option Int
  totalDurationMs : Int
  pagesRead : Int
  pageHistory : List PageReadingTime
  avgTimePerPageMs : ℚ
  fastestPageMs : Int
  slowestPageMs : Int
deriving DecidableEq, Repr

/-- `DocumentStats`: aggregated stats for one document.  The heatmap is an
association list from page-number strings to cumulative milliseconds; only
its key set and values are consumed, so insertion order stands in for
JavaScript object property order. -/
structure DocumentStats where
  documentId : String
  documentName : String
  totalReadingTimeMs : Int
  totalSessionCount : Int
  totalPagesRead : Int
  uniquePagesRead : Int
  avgSessionDurationMs : ℚ
  avgTimePerPageMs : ℚ
  lastReadAt : Int
  firstReadAt : Int
  pageHeatmap : List (String × Int)
deriving DecidableEq, Repr

/-- `DailyReadingSummary`: one record per calendar-date string. -/
structure DailyReadingSummary where
  date : String
  totalReadingTimeMs : Int
  totalPagesRead : Int
  sessionCount : Int
  documentsRead : List String
deriving DecidableEq, Repr

/-- `GlobalAnalytics`: the singleton lifetime record. -/
structure GlobalAnalytics where
  id : String
  totalLifetimeReadingMs : Int
  totalLifetimePagesRead : Int
  totalLifetimeSessions : Int
  avgReadingTimePerDayMs : ℚ
  avgPagesPerDay : ℚ
  longestSessionMs : Int
  longestStreak : Int
  currentStreak : Int
  lastActiveDate : String
  weeklyData : List Int
deriving DecidableEq, Repr

/-- The all-zero default `GlobalAnalytics` that `getGlobalAnalytics` returns
when the store holds none; its `lastActiveDate` is today's string. -/
def defaultGlobal (now : Int) : GlobalAnalytics :=
  { id := "global"
    totalLifetimeReadingMs := 0
    totalLifetimePagesRead := 0
    totalLifetimeSessions := 0
    avgReadingTimePerDayMs := 0
    avgPagesPerDay := 0
    longestSessionMs := 0
    longestStreak := 0
    currentStreak := 0
    lastActiveDate := getTodayString now
    weeklyData := [0, 0, 0, 0, 0, 0, 0] }

-- ===========================================================================
-- The four collections (IndexedDB object stores; put = upsert on key path)
-- ===========================================================================

/-- The four analytics collections. -/
structure Store where
  sessions : List ReadingSessionRecord
  docStats : List DocumentStats
  dailySummaries : List DailyReadingSummary
  globalA : Option GlobalAnalytics
deriving DecidableEq, Repr

/-- The empty backing store. -/
def emptyStore : Store :=
  { sessions := [], docStats := [], dailySummaries := [], globalA := none }

/-- `sessions.put`: upsert keyed by session `id`. -/
def putSession (l : List ReadingSessionRecord) (r : ReadingSessionRecord) :
    List ReadingSessionRecord :=
  if l.any (fun s => s.id = r.id) then
    l.map (fun s => if s.id = r.id then r else s)
  else l ++ [r]

/-- `document_stats.get`: lookup keyed by `documentId`. -/
def lookupDocStats (l : List DocumentStats) (docId : String) :
    Option DocumentStats :=
  l.find? (fun s => s.documentId = docId)

/-- `document_stats.put`: upsert keyed by `documentId`. -/
def putDocStats (l : List DocumentStats) (st : DocumentStats) :
    List DocumentStats :=
  if l.any (fun s => s.documentId = st.documentId) then
    l.map (fun s => if s.documentId = st.documentId then st else s)
  else l ++ [st]

/-- `daily_summaries.get`: lookup keyed by `date`. -/
def lookupDaily (l : List DailyReadingSummary) (date : String) :
    Option DailyReadingSummary :=
  l.find? (fun s => s.date = date)

/-- `daily_summaries.put`: upsert keyed by `date`. -/
def putDaily (l : List DailyReadingSummary) (d : DailyReadingSummary) :
    List DailyReadingSummary :=
  if l.any (fun s => s.date = d.date) then
    l.map (fun s => if s.date = d.date then d else s)
  else l ++ [d]

/-- `getGlobalAnalytics`: the stored singleton, or the default if absent. -/
def getGlobalOrDefault (g : Option GlobalAnalytics) (now : Int) :
    GlobalAnalytics :=
  g.getD (defaultGlobal now)

-- ===========================================================================
-- Session Recorder state (use-reading-stats.ts hook state and refs)
-- ===========================================================================

/-- `PageTime`: one in-memory ledger entry, a page with its accumulated
dwell duration. -/
structure PageTime where
  page : Nat
  duration : Int
deriving DecidableEq, Repr

/-- The in-memory live-session state of `useReadingAnalytics`: the React
state (`isPaused`, `startTime`, `history`) and the refs (`pauseStartRef`,
`lastPageParams`, `accumulatedPauseTime`, `currentDocumentIdRef`). -/
structure RecorderState where
  documentId : Option String
  sessionId : String
  startTime : Int
  history : List PageTime
  lastPage : Nat
  lastPageTime : Int
  accumulatedPauseTime : Int
  isPaused : Bool
  pauseStart : Option Int
deriving DecidableEq, Repr

/-- The hook's initial state: paused, no document, page 1. -/
def initRecorder : RecorderState :=
  { documentId := none, sessionId := "session_0", startTime := 0
    history := [], lastPage := 1, lastPageTime := 0
    accumulatedPauseTime := 0, isPaused := true, pauseStart := none }

/-- Embeds `getSessionDuration`: while paused with an outstanding pause
start, the duration is frozen at the pause instant; otherwise it is
`Date.now() - startTime - accumulatedPauseTime`. -/
def getSessionDuration (s : RecorderState) (now : Int) : Int :=
  if s.isPaused then
    match s.pauseStart with
    | some p => p - s.startTime - s.accumulatedPauseTime
    | none => now - s.startTime - s.accumulatedPauseTime
  else now - s.startTime - s.accumulatedPauseTime

/-- Embeds `getCurrentPageDuration`: dwell on the tracked current page,
frozen at the pause instant while paused. -/
def getCurrentPageDuration (s : RecorderState) (now : Int) : Int :=
  if s.isPaused then
    match s.pauseStart with
    | some p => p - s.lastPageTime
    | none => now - s.lastPageTime
  else now - s.lastPageTime

/-- Add a duration to the first ledger entry for a page (the source's
`findIndex` followed by an in-place update of that index). -/
def addDurationFirst : List PageTime → Nat → Int → List PageTime
  | [], _, _ => []
  | e :: rest, p, d =>
      if e.page = p then { e with duration := e.duration + d } :: rest
      else e :: addDurationFirst rest p d

/-- Merge a committed dwell into the ledger: add to the existing entry for
that page if present, else append a new entry. -/
def mergePage (l : List PageTime) (p : Nat) (d : Int) : List PageTime :=
  if l.any (fun e => e.page = p) then addDurationFirst l p d
  else l ++ [⟨p, d⟩]

/-- Embeds the new-document branch of the document effect (lines 162-171):
reset start time, clear the ledger, point the page cursor at the opening
page, zero the accumulated pause time, and auto-start. -/
def openDocument (s : RecorderState) (docId : String) (page : Nat)
    (now : Int) : RecorderState :=
  { s with documentId := some docId, startTime := now, history := []
           lastPage := page, lastPageTime := now
           accumulatedPauseTime := 0, pauseStart := none, isPaused := false }

/-- Embeds the page-change effect (lines 196-222): when active and the page
differs from the tracked one, commit the previous page's dwell to the ledger
if it exceeds the 2000 ms noise threshold, then move the cursor. -/
def pageChange (s : RecorderState) (now : Int) (newPage : Nat) :
    RecorderState :=
  if s.documentId = none ∨ s.isPaused then s
  else
    let duration := now - s.lastPageTime
    if s.lastPage ≠ newPage then
      let history :=
        if duration > 2000 then mergePage s.history s.lastPage duration
        else s.history
      { s with history := history, lastPage := newPage, lastPageTime := now }
    else s

/-- Embeds the pause branch of `togglePause` (and the idle-watchdog pause):
record the pause start and mark the session paused. -/
def togglePausePause (s : RecorderState) (now : Int) : RecorderState :=
  { s with pauseStart := some now, isPaused := true }

/-- Embeds the unpause branch of `togglePause`: fold the elapsed pause into
`accumulatedPauseTime` and shift the current page's reference clock forward
by the same interval. -/
def togglePauseResume (s : RecorderState) (now : Int) : RecorderState :=
  match s.pauseStart with
  | some p =>
      { s with accumulatedPauseTime := s.accumulatedPauseTime + (now - p)
               lastPageTime := s.lastPageTime + (now - p)
               pauseStart := none, isPaused := false }
  | none => { s with pauseStart := none, isPaused := false }

/-- Embeds the same-document refocus branch of the document effect
(lines 172-178): fold the elapsed pause into `accumulatedPauseTime` and
unpause.  The page reference clock `lastPageParams.current.time` is not
touched on this path. -/
def refocusResume (s : RecorderState) (now : Int) : RecorderState :=
  if s.isPaused then
    match s.pauseStart with
    | some p =>
        { s with accumulatedPauseTime := s.accumulatedPauseTime + (now - p)
                 pauseStart := none, isPaused := false }
    | none => s
  else s

-- ===========================================================================
-- Building the session record (saveCurrentSession, lines 250-293)
-- ===========================================================================

/-- The complete ledger at finalize time: the committed history, plus the
in-progress page's dwell when it exceeds the 1000 ms closing threshold,
plus a fallback entry carrying the whole session duration when the result
would otherwise be empty. -/
def completeHistoryOf (s : RecorderState) (now : Int) : List PageTime :=
  let curDur := getCurrentPageDuration s now
  let base :=
    if curDur > 1000 then mergePage s.history s.lastPage curDur
    else s.history
  if base = [] then [⟨s.lastPage, getSessionDuration s now⟩] else base

/-- Minimum of a duration list, `0` when empty (`Math.min` guard). -/
def listMin : List Int → Int
  | [] => 0
  | d :: ds => ds.foldl min d

/-- Maximum of a duration list, `0` when empty (`Math.max` guard). -/
def listMax : List Int → Int
  | [] => 0
  | d :: ds => ds.foldl max d

/-- The `ReadingSessionRecord` that `saveCurrentSession` persists: every
page-history entry is written with `visitCount := 1`, `pagesRead` is the
count of distinct pages, and the velocity metrics come from the ledger. -/
def buildSession (s : RecorderState) (docId : String) (now : Int) :
    ReadingSessionRecord :=
  let dur := getSessionDuration s now
  let ch := completeHistoryOf s now
  let pages := (dedupFirst (ch.map (fun h => h.page))).length
  let pageDurations := ch.map (fun h => h.duration)
  { id := s.sessionId, documentId := docId
    startedAt := s.startTime, endedAt := some now
    totalDurationMs := dur, pagesRead := (pages : Int)
    pageHistory := ch.map (fun h => ⟨h.page, h.duration, 1⟩)
    avgTimePerPageMs := if pages > 0 then (dur : ℚ) / (pages : ℚ) else 0
    fastestPageMs := listMin pageDurations
    slowestPageMs := listMax pageDurations }

-- ===========================================================================
-- Aggregation engine (saveCurrentSession, lines 295-391)
-- ===========================================================================

/-- Add a value to the first heatmap entry with the given key. -/
def bumpHeatFirst : List (String × Int) → String → Int → List (String × Int)
  | [], _, _ => []
  | (k0, v0) :: rest, k, d =>
      if k0 = k then (k0, v0 + d) :: rest
      else (k0, v0) :: bumpHeatFirst rest k d

/-- Embeds `pageHeatmap[key] = (pageHeatmap[key] ?? 0) + ph.durationMs`:
update an existing key in place, else add the key. -/
def heatmapAdd (l : List (String × Int)) (k : String) (d : Int) :
    List (String × Int) :=
  if l.any (fun e => e.1 = k) then bumpHeatFirst l k d else l ++ [(k, d)]

/-- Embeds the `updatedStats` computation: read-merge of the per-document
aggregate with zero-valued defaults when no record exists. -/
def mkUpdatedStats (ex : Option DocumentStats) (docId docName : String)
    (ph : List PageReadingTime) (dur pages : Int) (sessAvg : ℚ)
    (now : Int) : DocumentStats :=
  let hm0 := (ex.map (fun st => st.pageHeatmap)).getD []
  let hm := ph.foldl (fun acc p => heatmapAdd acc (toString p.page) p.durationMs) hm0
  { documentId := docId
    documentName := docName
    totalReadingTimeMs := (ex.map (fun st => st.totalReadingTimeMs)).getD 0 + dur
    totalSessionCount := (ex.map (fun st => st.totalSessionCount)).getD 0 + 1
    totalPagesRead := (ex.map (fun st => st.totalPagesRead)).getD 0 + pages
    uniquePagesRead := (hm.length : Int)
    avgSessionDurationMs :=
      match ex with
      | some st =>
          (st.avgSessionDurationMs * (st.totalSessionCount : ℚ) + (dur : ℚ)) /
            ((st.totalSessionCount : ℚ) + 1)
      | none => (dur : ℚ)
    avgTimePerPageMs :=
      match ex with
      | some st =>
          (st.avgTimePerPageMs * (st.totalPagesRead : ℚ) + (dur : ℚ)) /
            ((st.totalPagesRead : ℚ) + (pages : ℚ))
      | none => sessAvg
    lastReadAt := now
    firstReadAt := (ex.map (fun st => st.firstReadAt)).getD now
    pageHeatmap := hm }

/-- Embeds the `updatedDaily` computation: merge into today's summary with
zero defaults, unioning `documentsRead` with the session's document id
(JavaScript `Set` semantics, first occurrence kept). -/
def mkUpdatedDaily (ex : Option DailyReadingSummary) (today : String)
    (dur pages : Int) (docId : String) : DailyReadingSummary :=
  { date := today
    totalReadingTimeMs := (ex.map (fun e => e.totalReadingTimeMs)).getD 0 + dur
    totalPagesRead := (ex.map (fun e => e.totalPagesRead)).getD 0 + pages
    sessionCount := (ex.map (fun e => e.sessionCount)).getD 0 + 1
    documentsRead :=
      match ex with
      | some e => dedupFirst (e.documentsRead ++ [docId])
      | none => [docId] }

/-- Embeds the `updatedGlobal` computation (lines 350-387): lifetime totals,
longest session, the streak recomputation against the `toISOString` date
strings of now and of one day earlier, today's Monday-indexed weekly-minutes
bucket, and `lastActiveDate := today`.  `setDate(getDate() - 1)` subtracts
one calendar day, which is 86400000 ms in a fixed-offset timezone. -/
def mkUpdatedGlobal (tz : Int) (g : GlobalAnalytics) (now dur pages : Int) :
    GlobalAnalytics :=
  let today := getTodayString now
  let yesterdayStr := getTodayString (now - 86400000)
  let newCurrentStreak :=
    if g.lastActiveDate = yesterdayStr then g.currentStreak + 1
    else if g.lastActiveDate ≠ today then 1
    else g.currentStreak
  let adjusted := jsAdjustedDay tz now
  let weekly :=
    g.weeklyData.set adjusted (g.weeklyData.getD adjusted 0 + jsRoundDiv60000 dur)
  { id := "global"
    totalLifetimeReadingMs := g.totalLifetimeReadingMs + dur
    totalLifetimePagesRead := g.totalLifetimePagesRead + pages
    totalLifetimeSessions := g.totalLifetimeSessions + 1
    avgReadingTimePerDayMs := g.avgReadingTimePerDayMs
    avgPagesPerDay := g.avgPagesPerDay
    longestSessionMs := max g.longestSessionMs dur
    longestStreak := max g.longestStreak newCurrentStreak
    currentStreak := newCurrentStreak
    lastActiveDate := today
    weeklyData := weekly }

/-- Embeds the whole storage sequence of `saveCurrentSession` in the
error-free case: guard on a tracked document and on the 5000 ms minimum
active duration, then save the session record and read-merge-write the
document stats, the daily summary and the global analytics in order. -/
def saveCurrentSession (tz : Int) (docName : String) (s : RecorderState)
    (now : Int) (store : Store) : Store :=
  match s.documentId with
  | none => store
  | some docId =>
      let dur := getSessionDuration s now
      if dur < 5000 then store
      else
        let sess := buildSession s docId now
        let pages := sess.pagesRead
        let store1 := { store with sessions := putSession store.sessions sess }
        let newStats := mkUpdatedStats (lookupDocStats store1.docStats docId)
          docId docName sess.pageHistory dur pages sess.avgTimePerPageMs now
        let store2 := { store1 with docStats := putDocStats store1.docStats newStats }
        let today := getTodayString now
        let newDaily := mkUpdatedDaily (lookupDaily store2.dailySummaries today)
          today dur pages docId
        let store3 := { store2 with dailySummaries := putDaily store2.dailySummaries newDaily }
        let g := getGlobalOrDefault store3.globalA now
        { store3 with globalA := some (mkUpdatedGlobal tz g now dur pages) }

-- ===========================================================================
-- Typed storage errors and the flush boundary (analytics-storage.ts 73-76,
-- use-reading-stats.ts 295-397)
-- ===========================================================================

/-- `AnalyticsStorageError`: the tagged error every storage operation fails
with, carrying a message and the underlying cause (the raw fault is
modelled as a string). -/
structure AnalyticsStorageError where
  message : String
  cause : String
deriving DecidableEq, Repr

/-- The storage operations `saveCurrentSession` performs, in order. -/
inductive StorageCall
  | saveSessionCall
  | getDocumentStatsCall
  | updateDocumentStatsCall
  | getDailySummaryCall
  | updateDailySummaryCall
  | getGlobalAnalyticsCall
  | updateGlobalAnalyticsCall
deriving DecidableEq, Repr

/-- The message each operation wraps a raw fault with (from the
`Effect.tryPromise` catch handlers of `analytics-storage.ts`). -/
def callErrorMessage : StorageCall → String
  | .saveSessionCall => "Failed to save session"
  | .getDocumentStatsCall => "Failed to get document stats"
  | .updateDocumentStatsCall => "Failed to update document stats"
  | .getDailySummaryCall => "Failed to get daily summary"
  | .updateDailySummaryCall => "Failed to update daily summary"
  | .getGlobalAnalyticsCall => "Failed to get global analytics"
  | .updateGlobalAnalyticsCall => "Failed to update global analytics"

/-- Outcome of the storage sequence: the store as of the last completed
write, and the typed error if some operation failed. -/
structure SaveOutcome where
  store : Store
  error : Option AnalyticsStorageError
deriving DecidableEq, Repr

/-- Run one storage call under a fault oracle: skip if the sequence already
failed; fail wrapping the injected raw cause with the call's message; else
apply the call's effect on the store. -/
def tryCall (faults : StorageCall → Option String) (c : StorageCall)
    (out : SaveOutcome) (f : Store → Store) : SaveOutcome :=
  match out.error with
  | some _ => out
  | none =>
      match faults c with
      | some cause =>
          { out with error := some ⟨callErrorMessage c, cause⟩ }
      | none => { store := f out.store, error := none }

/-- The ordered storage plan of one finalize: each write reads the
collections as they stand when it runs (the sequential, single-threaded
scheduling of the source). -/
def savePlan (tz : Int) (docName : String) (s : RecorderState) (now : Int)
    (docId : String) : List (StorageCall × (Store → Store)) :=
  let dur := getSessionDuration s now
  let sess := buildSession s docId now
  let pages := sess.pagesRead
  [ (.saveSessionCall,
      fun st => { st with sessions := putSession st.sessions sess })
  , (.getDocumentStatsCall, id)
  , (.updateDocumentStatsCall,
      fun st =>
        let ns := mkUpdatedStats (lookupDocStats st.docStats docId) docId
          docName sess.pageHistory dur pages sess.avgTimePerPageMs now
        { st with docStats := putDocStats st.docStats ns })
  , (.getDailySummaryCall, id)
  , (.updateDailySummaryCall,
      fun st =>
        let nd := mkUpdatedDaily (lookupDaily st.dailySummaries (getTodayString now))
          (getTodayString now) dur pages docId
        { st with dailySummaries := putDaily st.dailySummaries nd })
  , (.getGlobalAnalyticsCall, id)
  , (.updateGlobalAnalyticsCall,
      fun st =>
        let ng := mkUpdatedGlobal tz (getGlobalOrDefault st.globalA now) now dur pages
        { st with globalA := some ng }) ]

/-- Run a storage plan in order under a fault oracle. -/
def runCalls (faults : StorageCall → Option String) :
    List (StorageCall × (Store → Store)) → SaveOutcome → SaveOutcome
  | [], out => out
  | (c, f) :: rest, out => runCalls faults rest (tryCall faults c out f)

/-- `saveCurrentSession` under a fault oracle: the guards never touch
storage; otherwise the plan runs until it completes or an operation fails. -/
def saveWithFaults (faults : StorageCall → Option String) (tz : Int)
    (docName : String) (s : RecorderState) (now : Int) (store : Store) :
    SaveOutcome :=
  match s.documentId with
  | none => { store := store, error := none }
  | some docId =>
      if getSessionDuration s now < 5000 then { store := store, error := none }
      else runCalls faults (savePlan tz docName s now docId) { store := store, error := none }

/-- The flush-coordinator boundary: the outer try/catch of
`saveCurrentSession` logs a failure and rethrows nothing, and the function
body never assigns the live-session refs or state, so the recorder component
passes through unchanged. -/
def finalizeCoordinator (faults : StorageCall → Option String) (tz : Int)
    (docName : String) (now : Int) (p : RecorderState × Store) :
    RecorderState × Store :=
  (p.1, (saveWithFaults faults tz docName p.1 now p.2).store)

-- ===========================================================================
-- Concrete fixtures used by the closed theorems below
-- ===========================================================================

/-- A live recorder on document "doc-A", session started at instant 0 on
page 1, never paused. -/
def liveRecorderA : RecorderState :=
  { initRecorder with documentId := some "doc-A", sessionId := "s1"
                      isPaused := false }

/-- A live recorder on document "doc-B", for the concurrent-trigger
scenario. -/
def liveRecorderB : RecorderState :=
  { initRecorder with documentId := some "doc-B", sessionId := "s2"
                      isPaused := false }

/-- A session in which page 1 is visited twice: open "doc-C" on page 1 at
instant 0, go to page 2 at 3000, return to page 1 at 6000, go to page 3 at
10000.  Every committed dwell exceeds the 2000 ms threshold, so the ledger
holds page 1 with the two visits merged (7000 ms) and page 2 (3000 ms). -/
def revisitRecorder : RecorderState :=
  pageChange (pageChange (pageChange
    (openDocument initRecorder "doc-C" 1 0) 3000 2) 6000 1) 10000 3

/-- New York standard time as a fixed offset: 5 hours behind UTC. -/
def tzNewYork : Int := -18000000

/-- 2024-01-02T03:00:00Z in epoch milliseconds; in the `tzNewYork` zone this
instant falls on the local date 2024-01-01, 22:00. -/
def lateEveningNY : Int := 1704164400000

/-- A stored global record: five-day streak, last active on "2024-01-01". -/
def globalJan1 : GlobalAnalytics :=
  { defaultGlobal 0 with lastActiveDate := "2024-01-01"
                         currentStreak := 5, longestStreak := 5 }

/-- A stored global record with a nine-day streak last active well in the
past ("2023-12-25"): the gap case of the streak rule. -/
def globalGap : GlobalAnalytics :=
  { defaultGlobal 0 with lastActiveDate := "2023-12-25"
                         currentStreak := 9, longestStreak := 9 }

/-- The claim's streak value, following the spec's words: the same branch
structure as the source but with today and yesterday taken as local date
strings. -/
def specStreakLocal (tz : Int) (g : GlobalAnalytics) (now : Int) : Int :=
  if g.lastActiveDate = specLocalDateString tz (now - 86400000) then
    g.currentStreak + 1
  else if g.lastActiveDate ≠ specLocalDateString tz now then 1
  else g.currentStreak

/-- A session paused at instant 10000 whose page reference clock reads 5000,
about to be resumed by a document refocus at 20000. -/
def pausedRecorderC : RecorderState :=
  { initRecorder with documentId := some "doc-D", sessionId := "s6"
                      startTime := 0, lastPage := 2, lastPageTime := 5000
                      isPaused := true, pauseStart := some 10000 }

/-- A live recorder on "doc-F" that has read for 10 seconds up to the late
New York evening instant. -/
def eveningRecorder : RecorderState :=
  { initRecorder with documentId := some "doc-F", sessionId := "s7"
                      startTime := lateEveningNY - 10000
                      lastPage := 1, lastPageTime := lateEveningNY - 10000
                      isPaused := false }

/-- A live recorder on "doc-E" with an empty committed ledger whose current
page has been visible for only 500 ms at instant 8000: both noise
thresholds fail at finalize time. -/
def freshRecorder : RecorderState :=
  { initRecorder with documentId := some "doc-E", sessionId := "s10"
                      startTime := 0, lastPage := 4, lastPageTime := 7500
                      isPaused := false }

/-- A fault oracle making the document-stats write fail with a raw quota
fault while every other operation succeeds. -/
def faultQuota : StorageCall → Option String :=
  fun c =>
    if c = StorageCall.updateDocumentStatsCall then some "QuotaExceededError"
    else none

-- ===========================================================================
-- Helper lemmas
-- ===========================================================================

theorem mem_dedupFirst {α : Type} [DecidableEq α] (l : List α) (a : α) :
    a ∈ dedupFirst l ↔ a ∈ l := by
  induction l using dedupFirst.induct with
  | case1 => rw [dedupFirst]
  | case2 x xs ih =>
      rw [dedupFirst]
      simp only [List.mem_cons, ih, List.mem_filter, decide_eq_true_eq]
      by_cases hax : a = x
      · simp [hax]
      · simp [hax]

theorem dedupFirst_nodup {α : Type} [DecidableEq α] (l : List α) :
    (dedupFirst l).Nodup := by
  induction l using dedupFirst.induct with
  | case1 => rw [dedupFirst]; exact List.nodup_nil
  | case2 x xs ih =>
      rw [dedupFirst]
      refine List.nodup_cons.mpr ⟨?_, ih⟩
      intro hx
      rw [mem_dedupFirst] at hx
      simp [List.mem_filter] at hx

theorem dedupFirst_length_pos {α : Type} [DecidableEq α] (l : List α)
    (h : l ≠ []) : 1 ≤ (dedupFirst l).length := by
  cases l with
  | nil => exact absurd rfl h
  | cons x xs => rw [dedupFirst]; simp

theorem completeHistoryOf_ne_nil (s : RecorderState) (now : Int) :
    completeHistoryOf s now ≠ [] := by
  by_cases h1 : getCurrentPageDuration s now > 1000 <;>
    by_cases h2 : (if getCurrentPageDuration s now > 1000 then
        mergePage s.history s.lastPage (getCurrentPageDuration s now)
      else s.history) = [] <;>
    simp_all [completeHistoryOf]

-- ===========================================================================
-- Claim theorems
-- ===========================================================================

/-- C3: a finalize whose active session duration is strictly below the
5000 ms minimum persists no session record and leaves the sessions,
document-stats, daily-summaries and global collections unchanged. -/
theorem short_session_not_persisted (tz : Int) (docName : String)
    (s : RecorderState) (now : Int) (store : Store)
    (h : getSessionDuration s now < 5000) :
    saveCurrentSession tz docName s now store = store := by
  unfold saveCurrentSession
  cases hd : s.documentId with
  | none => rfl
  | some docId => simp [h]

/-- C3 witness: the live session on "doc-A" at instant 4000 is below the
minimum and leaves the empty store untouched. -/
theorem short_session_not_persisted_witness :
    getSessionDuration liveRecorderA 4000 < 5000 ∧
      saveCurrentSession 0 "A" liveRecorderA 4000 emptyStore = emptyStore :=
  ⟨by decide,
    short_session_not_persisted 0 "A" liveRecorderA 4000 emptyStore (by decide)⟩

/-- C5: the reported session duration of an active session is
`now - startTime - accumulatedPauseTime`; after pausing at `t1` it is frozen
at `t1 - startTime - accumulatedPauseTime`; and pausing at `t1` then
resuming at `t2` leaves every later reading exactly `t2 - t1` below the same
session with no pause. -/
theorem duration_excludes_pause (s : RecorderState) (t t1 t2 : Int)
    (hactive : s.isPaused = false) :
    getSessionDuration s t = t - s.startTime - s.accumulatedPauseTime ∧
    getSessionDuration (togglePausePause s t1) t
      = t1 - s.startTime - s.accumulatedPauseTime ∧
    getSessionDuration (togglePauseResume (togglePausePause s t1) t2) t
      = getSessionDuration s t - (t2 - t1) := by
  refine ⟨?_, ?_, ?_⟩
  · simp [getSessionDuration, hactive]
  · simp [getSessionDuration, togglePausePause]
  · simp [getSessionDuration, togglePausePause, togglePauseResume, hactive]
    ring

/-- C5 witness: a pause from 100000 to 160000 makes the duration read at
200000 sixty seconds smaller than with no pause. -/
theorem duration_excludes_pause_witness :
    liveRecorderA.isPaused = false ∧
    getSessionDuration
        (togglePauseResume (togglePausePause liveRecorderA 100000) 160000)
        200000
      = getSessionDuration liveRecorderA 200000 - (160000 - 100000) :=
  ⟨rfl, (duration_excludes_pause liveRecorderA 200000 100000 160000 rfl).2.2⟩

/-- C6 counterexample: resuming `pausedRecorderC` by document refocus at
20000 leaves the page reference clock at 5000 instead of shifting it by the
10000 ms pause, so the in-progress dwell reported afterwards is 15000 ms,
not the 5000 ms of active dwell the claim requires. -/
theorem refocus_dwell_includes_pause :
    (refocusResume pausedRecorderC 20000).accumulatedPauseTime = 10000 ∧
    (refocusResume pausedRecorderC 20000).lastPageTime = 5000 ∧
    getCurrentPageDuration (refocusResume pausedRecorderC 20000) 20000
      = 15000 ∧
    (15000 : Int) ≠ 20000 - 5000 - 10000 := by
  refine ⟨?_, ?_, ?_, ?_⟩ <;> decide

/-- C6 (amended): on an explicit resume the elapsed pause interval is added
to `accumulatedPauseTime` and the page reference clock is shifted forward by
the same interval; on a document-refocus resume only `accumulatedPauseTime`
is updated while the page reference clock stays in place, so the dwell
reported after a refocus still includes the paused interval. -/
theorem resume_pause_accounting (s : RecorderState) (now p : Int)
    (hp : s.pauseStart = some p) (hpause : s.isPaused = true) :
    (togglePauseResume s now).accumulatedPauseTime
      = s.accumulatedPauseTime + (now - p) ∧
    (togglePauseResume s now).lastPageTime
      = s.lastPageTime + (now - p) ∧
    (refocusResume s now).accumulatedPauseTime
      = s.accumulatedPauseTime + (now - p) ∧
    (refocusResume s now).lastPageTime = s.lastPageTime ∧
    getCurrentPageDuration (refocusResume s now) now = now - s.lastPageTime := by
  refine ⟨?_, ?_, ?_, ?_, ?_⟩ <;>
    simp [togglePauseResume, refocusResume, getCurrentPageDuration, hp, hpause]

/-- C6 witness: the two resume paths applied to `pausedRecorderC` at
instant 20000. -/
theorem resume_pause_accounting_witness :
    (togglePauseResume pausedRecorderC 20000).accumulatedPauseTime
      = 0 + (20000 - 10000) ∧
    (togglePauseResume pausedRecorderC 20000).lastPageTime
      = 5000 + (20000 - 10000) ∧
    (refocusResume pausedRecorderC 20000).accumulatedPauseTime
      = 0 + (20000 - 10000) ∧
    (refocusResume pausedRecorderC 20000).lastPageTime = 5000 ∧
    getCurrentPageDuration (refocusResume pausedRecorderC 20000) 20000
      = 20000 - 5000 :=
  resume_pause_accounting pausedRecorderC 20000 10000 rfl rfl

/-- C1: two sequential finalizes of the same live session (autosave at
30000, then again at 60000, the recorder never being reset in between)
leave `DocumentStats.totalReadingTimeMs` at 90000 — the sum of two
overlapping cumulative totals (30000 and 60000) — and not at the 60000 that
the prior value plus the two disjoint sub-interval durations
(30000 + 30000) would give. -/
theorem sequential_finalizes_double_count :
    ((lookupDocStats
        (saveCurrentSession 0 "A" liveRecorderA 60000
          (saveCurrentSession 0 "A" liveRecorderA 30000 emptyStore)).docStats
        "doc-A").map (fun st => st.totalReadingTimeMs)) = some 90000 ∧
    (90000 : Int) ≠ 0 + (30000 + (60000 - 30000)) := by
  refine ⟨?_, ?_⟩ <;> decide

/-- C2: an autosave tick at 30000 and an idle timeout at 30001 both firing
for the same live session each run the full aggregation pass — the source
has no in-flight guard — so `DocumentStats.totalSessionCount` rises by 2,
not by the exactly 1 the claim requires. -/
theorem overlapping_triggers_double_pass :
    ((lookupDocStats
        (saveCurrentSession 0 "B" liveRecorderB 30001
          (saveCurrentSession 0 "B" liveRecorderB 30000 emptyStore)).docStats
        "doc-B").map (fun st => st.totalSessionCount)) = some 2 ∧
    (2 : Int) ≠ 0 + 1 := by
  refine ⟨?_, ?_⟩ <;> decide

/-- C8: in the persisted session of `revisitRecorder` — in which page 1 was
genuinely visited twice, its two dwells merged into one 7000 ms entry —
every page-history entry carries `visitCount = 1`, including page 1, whereas
the claim requires a page visited twice to carry `visitCount = 2`. -/
theorem visit_count_always_one :
    ((saveCurrentSession 0 "C" revisitRecorder 12000 emptyStore).sessions.map
        (fun r => r.pageHistory.map (fun e => (e.page, e.visitCount))))
      = [[(1, 1), (2, 1), (3, 1)]] ∧
    ((1 : Int)) ≠ 2 := by
  refine ⟨?_, ?_⟩ <;> decide

/-- C4 counterexample: at 2024-01-02T03:00Z in the UTC-5 zone the local date
is still 2024-01-01, which equals `lastActiveDate` of `globalJan1`, so the
claim (local dates) leaves the five-day streak unchanged at 5; the code uses
the UTC strings, sees `lastActiveDate` equal to UTC-yesterday, and
increments the streak to 6. -/
theorem streak_uses_utc_not_local :
    (mkUpdatedGlobal tzNewYork globalJan1 lateEveningNY 6000 1).currentStreak
      = 6 ∧
    specStreakLocal tzNewYork globalJan1 lateEveningNY = 5 ∧
    specLocalDateString tzNewYork lateEveningNY = globalJan1.lastActiveDate ∧
    (6 : Int) ≠ 5 := by
  refine ⟨?_, ?_, ?_, ?_⟩ <;> decide

/-- C4 (amended): with today and yesterday taken as the UTC date strings of
`toISOString` (not local dates), every global update increments the streak
when `lastActiveDate` is yesterday, resets it to 1 when it differs from
today, and leaves it unchanged when it equals today; `longestStreak` becomes
the max of itself and the new streak and `lastActiveDate` becomes today; in
particular the first finalize after a multi-day gap yields streak 1. -/
theorem streak_update_utc (tz : Int) (g : GlobalAnalytics)
    (now dur pages : Int) :
    (mkUpdatedGlobal tz g now dur pages).currentStreak
      = (if g.lastActiveDate = getTodayString (now - 86400000) then
           g.currentStreak + 1
         else if g.lastActiveDate ≠ getTodayString now then 1
         else g.currentStreak) ∧
    (mkUpdatedGlobal tz g now dur pages).longestStreak
      = max g.longestStreak (mkUpdatedGlobal tz g now dur pages).currentStreak ∧
    (mkUpdatedGlobal tz g now dur pages).lastActiveDate = getTodayString now ∧
    (g.lastActiveDate ≠ getTodayString (now - 86400000) →
      g.lastActiveDate ≠ getTodayString now →
      (mkUpdatedGlobal tz g now dur pages).currentStreak = 1) := by
  refine ⟨rfl, rfl, rfl, ?_⟩
  intro h1 h2
  simp [mkUpdatedGlobal, h1, h2]

/-- C4 witness: finalizing on 2024-01-02 with `lastActiveDate` stuck at
"2023-12-25" resets the streak to 1. -/
theorem streak_update_utc_witness :
    (mkUpdatedGlobal 0 globalGap lateEveningNY 90000 3).currentStreak = 1 :=
  (streak_update_utc 0 globalGap lateEveningNY 90000 3).2.2.2
    (by decide) (by decide)

/-- C7 counterexample: the finalize of `eveningRecorder` at
2024-01-02T03:00Z in the UTC-5 zone files the daily summary under
"2024-01-02" (the UTC date string) although the local date of that instant
is "2024-01-01". -/
theorem daily_key_not_local :
    ((saveCurrentSession tzNewYork "F" eveningRecorder lateEveningNY
        emptyStore).dailySummaries.map (fun d => d.date)) = ["2024-01-02"] ∧
    specLocalDateString tzNewYork lateEveningNY = "2024-01-01" ∧
    ("2024-01-02" : String) ≠ "2024-01-01" := by
  refine ⟨?_, ?_, ?_⟩ <;> decide

/-- C7 (amended): the daily summaries hold one record per calendar date
keyed by the UTC date string of `toISOString` (not the local date), and
every finalize upserts at that key the read-merge record that adds reading
time, pages and session count and unions `documentsRead` with the session's
document id under set semantics (no duplicates, the id always present). -/
theorem daily_summary_merge (tz : Int) (docName : String) (s : RecorderState)
    (now : Int) (store : Store) (docId : String)
    (hdoc : s.documentId = some docId)
    (hdur : ¬ getSessionDuration s now < 5000) :
    (saveCurrentSession tz docName s now store).dailySummaries
      = putDaily store.dailySummaries
          (mkUpdatedDaily
            (lookupDaily store.dailySummaries (getTodayString now))
            (getTodayString now) (getSessionDuration s now)
            (buildSession s docId now).pagesRead docId) ∧
    (∀ (ex : Option DailyReadingSummary) (today : String) (dur pages : Int)
        (id0 : String),
      (mkUpdatedDaily ex today dur pages id0).date = today ∧
      (mkUpdatedDaily ex today dur pages id0).totalReadingTimeMs
        = (ex.map (fun e => e.totalReadingTimeMs)).getD 0 + dur ∧
      (mkUpdatedDaily ex today dur pages id0).totalPagesRead
        = (ex.map (fun e => e.totalPagesRead)).getD 0 + pages ∧
      (mkUpdatedDaily ex today dur pages id0).sessionCount
        = (ex.map (fun e => e.sessionCount)).getD 0 + 1 ∧
      (mkUpdatedDaily ex today dur pages id0).documentsRead.Nodup ∧
      id0 ∈ (mkUpdatedDaily ex today dur pages id0).documentsRead) := by
  constructor
  · simp [saveCurrentSession, hdoc, hdur]
  · intro ex today dur pages id0
    refine ⟨rfl, rfl, rfl, rfl, ?_, ?_⟩
    · cases ex with
      | none => simp [mkUpdatedDaily]
      | some e =>
          simpa [mkUpdatedDaily] using dedupFirst_nodup (e.documentsRead ++ [id0])
    · cases ex with
      | none => simp [mkUpdatedDaily]
      | some e => simp [mkUpdatedDaily, mem_dedupFirst]

/-- C7 witness: the finalize of the "doc-B" session at instant 9000 merges
into the summary keyed by the UTC date string of instant 9000. -/
theorem daily_summary_merge_witness :
    (saveCurrentSession 0 "B" liveRecorderB 9000 emptyStore).dailySummaries
      = putDaily emptyStore.dailySummaries
          (mkUpdatedDaily
            (lookupDaily emptyStore.dailySummaries (getTodayString 9000))
            (getTodayString 9000) (getSessionDuration liveRecorderB 9000)
            (buildSession liveRecorderB "doc-B" 9000).pagesRead "doc-B") :=
  (daily_summary_merge 0 "B" liveRecorderB 9000 emptyStore "doc-B" rfl
    (by decide)).1

theorem tryCall_error_cases (faults : StorageCall → Option String)
    (c : StorageCall) (out : SaveOutcome) (f : Store → Store)
    (e : AnalyticsStorageError)
    (h : (tryCall faults c out f).error = some e) :
    out.error = some e ∨
      ∃ cause, faults c = some cause ∧ e = ⟨callErrorMessage c, cause⟩ := by
  obtain ⟨st, err⟩ := out
  cases err with
  | some e0 =>
      simp [tryCall] at h
      exact Or.inl (by simp [h])
  | none =>
      cases hf : faults c with
      | some cause =>
          simp [tryCall, hf] at h
          exact Or.inr ⟨cause, rfl, h.symm⟩
      | none => simp [tryCall, hf] at h

theorem runCalls_error_cases (faults : StorageCall → Option String)
    (plan : List (StorageCall × (Store → Store))) (out : SaveOutcome)
    (e : AnalyticsStorageError)
    (h : (runCalls faults plan out).error = some e) :
    out.error = some e ∨
      ∃ c cause, faults c = some cause ∧ e = ⟨callErrorMessage c, cause⟩ := by
  induction plan generalizing out with
  | nil => exact Or.inl h
  | cons p rest ih =>
      obtain ⟨c, f⟩ := p
      rcases ih (tryCall faults c out f) h with h1 | h2
      · rcases tryCall_error_cases faults c out f e h1 with h3 | ⟨cause, hc, he⟩
        · exact Or.inl h3
        · exact Or.inr ⟨c, cause, hc, he⟩
      · exact Or.inr h2

/-- C9: whenever a finalize's storage sequence fails, the failure is the
typed `AnalyticsStorageError` built from the failing operation's message and
the injected raw cause — never an unstructured fault — and the coordinator
boundary absorbs it: the recorder's in-memory state (history, start time,
accumulated pause time) passes through unchanged, so the live session
continues uninterrupted. -/
theorem storage_error_typed_and_absorbed
    (faults : StorageCall → Option String) (tz : Int) (docName : String)
    (s : RecorderState) (now : Int) (store : Store)
    (e : AnalyticsStorageError)
    (h : (saveWithFaults faults tz docName s now store).error = some e) :
    (∃ c cause, faults c = some cause ∧ e = ⟨callErrorMessage c, cause⟩) ∧
    finalizeCoordinator faults tz docName now (s, store)
      = (s, (saveWithFaults faults tz docName s now store).store) := by
  constructor
  · unfold saveWithFaults at h
    cases hd : s.documentId with
    | none => rw [hd] at h; simp at h
    | some docId =>
        rw [hd] at h
        dsimp only at h
        by_cases h5 : getSessionDuration s now < 5000
        · rw [if_pos h5] at h; simp at h
        · rw [if_neg h5] at h
          rcases runCalls_error_cases faults _ _ e h with h1 | h2
          · simp at h1
          · exact h2
  · rfl

/-- C9 witness: under `faultQuota` the finalize of the "doc-A" session at
instant 9000 fails with the typed document-stats error and the coordinator
returns the recorder unchanged. -/
theorem storage_error_typed_and_absorbed_witness :
    (∃ c cause, faultQuota c = some cause ∧
      (⟨"Failed to update document stats", "QuotaExceededError"⟩ :
          AnalyticsStorageError)
        = ⟨callErrorMessage c, cause⟩) ∧
    finalizeCoordinator faultQuota 0 "A" 9000 (liveRecorderA, emptyStore)
      = (liveRecorderA,
          (saveWithFaults faultQuota 0 "A" liveRecorderA 9000
            emptyStore).store) :=
  storage_error_typed_and_absorbed faultQuota 0 "A" liveRecorderA 9000
    emptyStore
    ⟨"Failed to update document stats", "QuotaExceededError"⟩ (by decide)

/-- C10: every session record a finalize persists is `buildSession`, whose
page history is never empty (so `pagesRead ≥ 1`); and when neither the
committed ledger nor the in-progress dwell passed its noise threshold the
history is the single fallback entry attributing the whole active duration
to the current page, so the page durations sum to the session duration. -/
theorem persisted_history_nonempty (tz : Int) (docName : String)
    (s : RecorderState) (now : Int) (store : Store) (docId : String)
    (hdoc : s.documentId = some docId)
    (hdur : ¬ getSessionDuration s now < 5000) :
    (saveCurrentSession tz docName s now store).sessions
      = putSession store.sessions (buildSession s docId now) ∧
    (buildSession s docId now).pageHistory ≠ [] ∧
    1 ≤ (buildSession s docId now).pagesRead ∧
    (s.history = [] → ¬ getCurrentPageDuration s now > 1000 →
      (buildSession s docId now).pageHistory
        = [⟨s.lastPage, getSessionDuration s now, 1⟩] ∧
      ((buildSession s docId now).pageHistory.map
          (fun e => e.durationMs)).sum = getSessionDuration s now) := by
  refine ⟨?_, ?_, ?_, ?_⟩
  · simp [saveCurrentSession, hdoc, hdur]
  · have hch := completeHistoryOf_ne_nil s now
    simp [buildSession]
    intro hcontra
    exact hch hcontra
  · have hch := completeHistoryOf_ne_nil s now
    have hmap : (completeHistoryOf s now).map (fun h => h.page) ≠ [] := by
      simpa using hch
    have hlen := dedupFirst_length_pos _ hmap
    simp only [buildSession]
    exact_mod_cast hlen
  · intro h0 h1
    constructor
    · simp [buildSession, completeHistoryOf, h0, h1]
    · simp [buildSession, completeHistoryOf, h0, h1]

/-- C10 witness: finalizing `freshRecorder` at instant 8000 (empty ledger,
500 ms current dwell) persists the single fallback entry carrying the whole
8000 ms session. -/
theorem persisted_history_nonempty_witness :
    (buildSession freshRecorder "doc-E" 8000).pageHistory
      = [⟨4, 8000, 1⟩] ∧
    ((buildSession freshRecorder "doc-E" 8000).pageHistory.map
        (fun e => e.durationMs)).sum = 8000 :=
  (persisted_history_nonempty 0 "E" freshRecorder 8000 emptyStore "doc-E"
    rfl (by decide)).2.2.2 rfl (by decide)
